import Mathlib

/-!
Shallow embedding of `include/foonathan/memory/virtual_memory.hpp`.

The single source file of the repository is the header of the virtual-memory
layer of a memory-allocation library.  It declares the four virtual-memory
primitives (`virtual_memory_reserve`, `virtual_memory_release`,
`virtual_memory_commit`, `virtual_memory_decommit`), the stateless
`virtual_memory_allocator`, and the stateful `virtual_block_allocator`.

The header contains the inline bodies of the move
constructor, move assignment, `swap`, `next_block_size` and
`capacity_left` of the block allocator; those are translated directly from the source below.
The bodies of the remaining operations (the block-allocator constructor,
`allocate_block`, `deallocate_block`, and the node-allocator operations
`allocate_node` / `deallocate_node`) live in a `.cpp` file that is not part
of the sources; they are modelled from the specification, each marked
`Modelled from the spec:` in its doc comment.

Addresses and sizes are modelled as `Nat` (C++ `std::size_t` / `char*`
pointer arithmetic; no operation here can overflow under the preconditions of the claims, so no `% 2 ^ w` reduction is needed).  The operating system
is modelled as an explicit state (`OS`): the multiset of live reservations
and of live commitments, as `(address, page count)` pairs.  The freedom of the OS
to deny a request or to choose a base address is made explicit by
passing the OS response (`Option Nat` for reserve, `Bool` for commit
success) as a parameter, so every function stays executable and total.
-/

/-- The operating-system side of the model: the cached page size together
with the multiset of live reservations and of live commitments, each a
`(base address, number of pages)` pair, newest first. -/
structure OS where
  pageSize : Nat
  reserved : List (Nat × Nat)
  committed : List (Nat × Nat)
  deriving DecidableEq

/-- Modelled from the spec: `virtual_memory_reserve` (declared at
`virtual_memory.hpp:44`, body in the missing platform `.cpp`).  Reserves
`no_pages` contiguous pages and returns the base address, or the
distinguished failure value (`none`) if the OS denies the request.  The
choice of base address (or the denial) by the OS is the explicit parameter `resp`. -/
def virtual_memory_reserve (os : OS) (no_pages : Nat) (resp : Option Nat) :
    Option Nat × OS :=
  match resp with
  | none => (none, os)
  | some addr => (some addr, { os with reserved := (addr, no_pages) :: os.reserved })

/-- Modelled from the spec: `virtual_memory_release` (declared at
`virtual_memory.hpp:51`, body in the missing platform `.cpp`).  Returns a
previously reserved `(pages, no_pages)` range to the system. -/
def virtual_memory_release (os : OS) (pages : Nat) (no_pages : Nat) : OS :=
  { os with reserved := os.reserved.erase (pages, no_pages) }

/-- Modelled from the spec: `virtual_memory_commit` (declared at
`virtual_memory.hpp:58`, body in the missing platform `.cpp`).  Marks
`no_pages` pages starting at `memory` available for use, returning the
beginning of the committed area, or `none` on failure.  Whether the OS can
back the pages is the explicit parameter `ok`. -/
def virtual_memory_commit (os : OS) (memory : Nat) (no_pages : Nat) (ok : Bool) :
    Option Nat × OS :=
  if ok then
    (some memory, { os with committed := (memory, no_pages) :: os.committed })
  else
    (none, os)

/-- Modelled from the spec: `virtual_memory_decommit` (declared at
`virtual_memory.hpp:65`, body in the missing platform `.cpp`).  Puts the
committed `(memory, no_pages)` range back in the reserved state. -/
def virtual_memory_decommit (os : OS) (memory : Nat) (no_pages : Nat) : OS :=
  { os with committed := os.committed.erase (memory, no_pages) }

/-- The external `memory_block` value type: an `(address, size)` pair,
opaque to this core beyond being constructed and returned. -/
structure memory_block where
  memory : Nat
  size : Nat
  deriving DecidableEq

/-- The out-of-memory error payload: the identity of the requesting
allocator (the name part of its `allocator_info`) and the originally requested byte
size. -/
structure out_of_memory where
  info : String
  size : Nat
  deriving DecidableEq

/-- The state of a `virtual_block_allocator`
(`virtual_memory.hpp:176-180`): `cur_` marks the first byte not yet
committed, `end_` the end of the reservation, and `block_size_` the fixed
block size.  Pointers become `Nat` addresses (`nullptr` = `0`). -/
structure virtual_block_allocator where
  cur_ : Nat
  end_ : Nat
  block_size_ : Nat
  deriving DecidableEq

/-- Source method `virtual_block_allocator::next_block_size`
(`virtual_memory.hpp:165-168`):
`return block_size_;`. -/
def virtual_block_allocator.next_block_size (a : virtual_block_allocator) : Nat :=
  a.block_size_

/-- Source method `virtual_block_allocator::capacity_left`
(`virtual_memory.hpp:171-174`):
`return (end_ - cur_) / block_size_;`.  Pointer difference is `Nat`
subtraction (the class invariant gives `cur_ ≤ end_`).  This `Nat`-division
translation is faithful only for `block_size_ ≠ 0`, which holds for every
constructed allocator; in the moved-from state `block_size_ = 0` and the
C++ expression divides by zero (undefined behavior), a case `Nat` division
silently totalizes to `0`.  The division-by-zero case is made explicit in
`capacity_left_ub` below; theorems use this version only where
`block_size_ ≠ 0`. -/
def virtual_block_allocator.capacity_left (a : virtual_block_allocator) : Nat :=
  (a.end_ - a.cur_) / a.block_size_

/-- Source method `virtual_block_allocator::capacity_left` with the C++
division semantics made explicit: `(end_ - cur_) / block_size_` is
undefined behavior when `block_size_ = 0` (the moved-from state), so the
result is `none` there and `some ((end_ - cur_) / block_size_)`
otherwise. -/
def virtual_block_allocator.capacity_left_ub (a : virtual_block_allocator) :
    Option Nat :=
  if a.block_size_ = 0 then none else some ((a.end_ - a.cur_) / a.block_size_)

/-- Move constructor of `virtual_block_allocator`
(`virtual_memory.hpp:128-134`): the destination takes over
`(cur_, end_, block_size_)` and the source is reset to
`cur_ = end_ = nullptr`, `block_size_ = 0`.  Returns
`(destination, source after the move)`. -/
def virtual_block_allocator.moveConstruct (other : virtual_block_allocator) :
    virtual_block_allocator × virtual_block_allocator :=
  (⟨other.cur_, other.end_, other.block_size_⟩, ⟨0, 0, 0⟩)

/-- Source function `swap` on two `virtual_block_allocator` references
(`virtual_memory.hpp:146-151`): exchanges `cur_`, `end_` and `block_size_`
of the two instances.  Returns the pair `(a after, b after)`. -/
def virtual_block_allocator.swap (a b : virtual_block_allocator) :
    virtual_block_allocator × virtual_block_allocator :=
  (⟨b.cur_, b.end_, b.block_size_⟩, ⟨a.cur_, a.end_, a.block_size_⟩)

/-- Move assignment of `virtual_block_allocator` (`virtual_memory.hpp:136-141`):
`virtual_block_allocator tmp(detail::move(other)); swap(*this, tmp);`.
`this` receives the old fields of `other` through `tmp`, `other` is left
empty by the move construction, and `tmp` (holding the old fields of
`this`) is destroyed.  Returns `(this after, other after)`. -/
def virtual_block_allocator.moveAssign (this other : virtual_block_allocator) :
    virtual_block_allocator × virtual_block_allocator :=
  let tmp_other := virtual_block_allocator.moveConstruct other
  let this_tmp := virtual_block_allocator.swap this tmp_other.1
  (this_tmp.1, tmp_other.2)

/-- Modelled from the spec: the `virtual_block_allocator(block_size, no_blocks)`
constructor (declared at `virtual_memory.hpp:120`, body in the missing
`.cpp`).  "Reserves `block_size * no_blocks` bytes as one reservation;
initializes cursor to the reservation start.  Signals out-of-memory if the
reservation cannot be made."  The byte count is turned into the page count
the reserve primitive takes (`block_size` is a multiple of the page size by
precondition).  Returns the constructed allocator or the out-of-memory
signal, together with the OS state after the call. -/
def virtual_block_allocator.construct (os : OS) (block_size no_blocks : Nat)
    (reserveResp : Option Nat) :
    Except out_of_memory virtual_block_allocator × OS :=
  match virtual_memory_reserve os (block_size * no_blocks / os.pageSize) reserveResp with
  | (none, os1) => (.error ⟨"virtual_block_allocator", block_size * no_blocks⟩, os1)
  | (some base, os1) =>
    (.ok ⟨base, base + block_size * no_blocks, block_size⟩, os1)

/-- Modelled from the spec: `virtual_block_allocator::allocate_block`
(declared at `virtual_memory.hpp:156`, body in the missing `.cpp`).
"if `cursor == end`, signals out-of-memory (capacity exhausted) without
touching the OS.  Otherwise commits `block_size` bytes starting at
`cursor`, advances `cursor` by `block_size`, and returns a block
`(old_cursor, block_size)`.  Signals out-of-memory (without advancing
state) if the commit call fails."  Whether the commit succeeds is the
explicit parameter `commitOk`; the committed byte count is expressed in
pages for the commit primitive.  Returns
`(result, allocator after, OS after)`. -/
def virtual_block_allocator.allocate_block (a : virtual_block_allocator) (os : OS)
    (commitOk : Bool) :
    Except out_of_memory memory_block × virtual_block_allocator × OS :=
  if a.cur_ = a.end_ then
    (.error ⟨"virtual_block_allocator", a.block_size_⟩, a, os)
  else
    match virtual_memory_commit os a.cur_ (a.block_size_ / os.pageSize) commitOk with
    | (none, os1) => (.error ⟨"virtual_block_allocator", a.block_size_⟩, a, os1)
    | (some memory, os1) =>
      (.ok ⟨memory, a.block_size_⟩, { a with cur_ := a.cur_ + a.block_size_ }, os1)

/-- Modelled from the spec: `virtual_block_allocator::deallocate_block`
(declared at `virtual_memory.hpp:162`, body in the missing `.cpp`).
"decommits `block_size` bytes starting at the address of `block` and retreats
`cursor` by `block_size`."  Precondition (not checked, per the spec):
`block` is the most recently allocated, still-committed block.  Returns
`(allocator after, OS after)`. -/
def virtual_block_allocator.deallocate_block (a : virtual_block_allocator) (os : OS)
    (block : memory_block) : virtual_block_allocator × OS :=
  ({ a with cur_ := a.cur_ - a.block_size_ },
   virtual_memory_decommit os block.memory (a.block_size_ / os.pageSize))

/-- The class invariant of `virtual_block_allocator` stated in the spec:
`end - cursor` is a non-negative multiple of `block_size` (with `Nat`
addresses, non-negativity is `cur_ ≤ end_`). -/
def virtual_block_allocator.inv (a : virtual_block_allocator) : Prop :=
  a.cur_ ≤ a.end_ ∧ a.block_size_ ∣ (a.end_ - a.cur_)

instance (a : virtual_block_allocator) : Decidable a.inv := by
  unfold virtual_block_allocator.inv; infer_instance

/-- Runs `k` consecutive `allocate_block` calls, each with a succeeding commit,
with no intervening deallocations; `none` if any call signals
out-of-memory. -/
def alloc_blocks : Nat → virtual_block_allocator → OS →
    Option (virtual_block_allocator × OS)
  | 0, a, os => some (a, os)
  | k + 1, a, os =>
    match a.allocate_block os true with
    | (.ok _, a1, os1) => alloc_blocks k a1 os1
    | (.error _, _, _) => none

/-- A single step of the mutating interface of the block allocator: an
`allocate_block` call (with the commit answer of the OS) or a
`deallocate_block` call. -/
inductive block_op where
  | alloc (commitOk : Bool)
  | dealloc (block : memory_block)

/-- Runs a sequence of `allocate_block` / `deallocate_block` calls,
threading the allocator and the OS state; a failed allocation leaves both
unchanged, as the code does. -/
def run_block_ops : List block_op → virtual_block_allocator → OS →
    virtual_block_allocator × OS
  | [], a, os => (a, os)
  | .alloc ok :: ops, a, os =>
    let r := a.allocate_block os ok
    run_block_ops ops r.2.1 r.2.2
  | .dealloc b :: ops, a, os =>
    let r := a.deallocate_block os b
    run_block_ops ops r.1 r.2

/-- The number of pages needed to hold `size` contiguous bytes:
`ceil(size / page_size)`. -/
def ceil_div (size pageSize : Nat) : Nat :=
  (size + pageSize - 1) / pageSize

/-- Modelled from the spec: `virtual_memory_allocator::allocate_node`
(declared at `virtual_memory.hpp:92`, body in the missing `.cpp`).
"Computes `pages = ceil(size / page_size)`; if debug fencing is enabled,
adds one guard page before and one after.  Reserves [that many] pages,
then commits [the pages of the allocation] (fencing pages, if present, are
reserved but deliberately NOT committed).  Returns the address of the
first byte past the leading guard page (or the start of the reservation if
fencing is disabled).  On reserve or commit failure: signals an
out-of-memory condition carrying the identity of the allocator and the
originally requested `size`; any partial reservation already made is
released before signaling."  The debug-fencing compile-time switch is the
parameter `fence`; the answers of the OS are `reserveResp` and `commitOk`.
The `alignment` argument only carries the precondition
`alignment ≤ page_size` and does not influence the computation, the
returned address being page-aligned already.  Returns
`(result, OS after)`. -/
def virtual_memory_allocator.allocate_node (os : OS) (size alignment : Nat)
    (fence : Bool) (reserveResp : Option Nat) (commitOk : Bool) :
    Except out_of_memory Nat × OS :=
  let fencePages := if fence then 1 else 0
  let allocPages := ceil_div size os.pageSize
  let totalPages := allocPages + 2 * fencePages
  match virtual_memory_reserve os totalPages reserveResp with
  | (none, os1) => (.error ⟨"virtual_memory_allocator", size⟩, os1)
  | (some base, os1) =>
    let node := base + fencePages * os.pageSize
    match virtual_memory_commit os1 node allocPages commitOk with
    | (none, os2) =>
      (.error ⟨"virtual_memory_allocator", size⟩,
       virtual_memory_release os2 base totalPages)
    | (some memory, os2) => (.ok memory, os2)

/-- Modelled from the spec: `virtual_memory_allocator::deallocate_node`
(declared at `virtual_memory.hpp:96`, body in the missing `.cpp`).
"recomputes the same `pages` count from `size` (and fencing flag) as at
allocation time.  Decommits then releases the full region (including
guard pages if present)."  The decommit matches the commit made at
allocation (the pages of the allocation); the release matches the full
reservation. -/
def virtual_memory_allocator.deallocate_node (os : OS) (node size alignment : Nat)
    (fence : Bool) : OS :=
  let fencePages := if fence then 1 else 0
  let allocPages := ceil_div size os.pageSize
  let totalPages := allocPages + 2 * fencePages
  let base := node - fencePages * os.pageSize
  virtual_memory_release (virtual_memory_decommit os node allocPages) base totalPages

/-! ## Frame lemmas for the mutating operations of the block allocator -/

lemma allocate_block_frame (a : virtual_block_allocator) (os : OS) (ok : Bool) :
    (a.allocate_block os ok).2.1.end_ = a.end_ ∧
    (a.allocate_block os ok).2.1.block_size_ = a.block_size_ := by
  by_cases h : a.cur_ = a.end_ <;> cases ok <;>
    simp [virtual_block_allocator.allocate_block, virtual_memory_commit, h]

lemma deallocate_block_frame (a : virtual_block_allocator) (os : OS) (b : memory_block) :
    (a.deallocate_block os b).1.end_ = a.end_ ∧
    (a.deallocate_block os b).1.block_size_ = a.block_size_ :=
  ⟨rfl, rfl⟩

lemma run_block_ops_frame (ops : List block_op) :
    ∀ (a : virtual_block_allocator) (os : OS),
      (run_block_ops ops a os).1.end_ = a.end_ ∧
      (run_block_ops ops a os).1.block_size_ = a.block_size_ := by
  induction ops with
  | nil => intro a os; exact ⟨rfl, rfl⟩
  | cons op ops ih =>
    intro a os
    cases op with
    | alloc ok =>
      have hstep := allocate_block_frame a os ok
      have := ih (a.allocate_block os ok).2.1 (a.allocate_block os ok).2.2
      exact ⟨this.1.trans hstep.1, this.2.trans hstep.2⟩
    | dealloc b =>
      have := ih (a.deallocate_block os b).1 (a.deallocate_block os b).2
      exact ⟨this.1, this.2⟩

lemma allocate_block_success_eq (a : virtual_block_allocator) (os : OS)
    (h : a.cur_ ≠ a.end_) :
    a.allocate_block os true =
      (.ok ⟨a.cur_, a.block_size_⟩,
       { a with cur_ := a.cur_ + a.block_size_ },
       { os with committed := (a.cur_, a.block_size_ / os.pageSize) :: os.committed }) := by
  simp [virtual_block_allocator.allocate_block, virtual_memory_commit, h]

lemma inv_allocate_block_aux (a : virtual_block_allocator) (os : OS) (ok : Bool)
    (h : a.inv) : (a.allocate_block os ok).2.1.inv := by
  by_cases hc : a.cur_ = a.end_
  · simpa [virtual_block_allocator.allocate_block, hc] using h
  · cases ok
    · simpa [virtual_block_allocator.allocate_block, virtual_memory_commit, hc] using h
    · obtain ⟨hle, m, hm⟩ := h
      have hbs : 0 < a.block_size_ := by
        rcases Nat.eq_zero_or_pos a.block_size_ with h0 | h0
        · rw [h0, Nat.zero_mul] at hm; omega
        · exact h0
      have hm1 : 0 < m := by
        rcases Nat.eq_zero_or_pos m with h0 | h0
        · rw [h0, Nat.mul_zero] at hm; omega
        · exact h0
      have hmul : a.block_size_ ≤ a.block_size_ * m := Nat.le_mul_of_pos_right _ hm1
      have h1 : a.cur_ + a.block_size_ ≤ a.end_ := by omega
      have hrw : a.end_ - (a.cur_ + a.block_size_) = a.block_size_ * m - a.block_size_ := by
        omega
      have h2 : a.block_size_ ∣ a.end_ - (a.cur_ + a.block_size_) := by
        rw [hrw]; exact Nat.dvd_sub' (dvd_mul_right _ _) dvd_rfl
      rw [allocate_block_success_eq a os hc]
      exact ⟨h1, h2⟩

lemma inv_deallocate_block_aux (a : virtual_block_allocator) (os : OS) (b : memory_block)
    (h : a.inv) (hbl : a.block_size_ ≤ a.cur_) : (a.deallocate_block os b).1.inv := by
  obtain ⟨hle, m, hm⟩ := h
  have h1 : a.cur_ - a.block_size_ ≤ a.end_ := le_trans (Nat.sub_le _ _) hle
  have hrw : a.end_ - (a.cur_ - a.block_size_) = a.block_size_ * m + a.block_size_ := by
    omega
  have h2 : a.block_size_ ∣ a.end_ - (a.cur_ - a.block_size_) := by
    rw [hrw]; exact Nat.dvd_add (dvd_mul_right _ _) dvd_rfl
  exact ⟨h1, h2⟩

/-! ## Claim theorems -/

/-- Counterexample to C1 as stated: after moving from a concrete
allocator (page size 4096, cursor 4096, end 16384), the source has
`block_size_ = 0`, so its `capacity_left()` executes `(0 - 0) / 0` —
division by zero, undefined behavior in C++ — rather than returning `0`:
under the division-semantics-faithful `capacity_left_ub` the result is
`none`, not `some 0`. -/
theorem moved_from_capacity_left_divides_by_zero :
    (virtual_block_allocator.moveConstruct ⟨4096, 16384, 4096⟩).2.block_size_ = 0 ∧
    (virtual_block_allocator.moveConstruct ⟨4096, 16384, 4096⟩).2.capacity_left_ub =
      none ∧
    (virtual_block_allocator.moveConstruct ⟨4096, 16384, 4096⟩).2.capacity_left_ub ≠
      some 0 := by
  refine ⟨rfl, rfl, by decide⟩

/-- C1 (amended): moving a `virtual_block_allocator` (move construction
or move assignment) preserves `capacity_left` (in its division-semantics-
faithful reading `capacity_left_ub`) and `next_block_size` exactly in the
destination; the moved-from source has `next_block_size = 0` and
`cur_ = end_ = nullptr` (= `0`), and calling `capacity_left()` on it is
the division-by-zero case (`none`), not `0`. -/
theorem move_preserves_capacity_destination (a this : virtual_block_allocator) :
    (a.moveConstruct.1.capacity_left_ub = a.capacity_left_ub ∧
     a.moveConstruct.1.next_block_size = a.next_block_size ∧
     a.moveConstruct.2.next_block_size = 0 ∧
     a.moveConstruct.2.cur_ = 0 ∧ a.moveConstruct.2.end_ = 0 ∧
     a.moveConstruct.2.capacity_left_ub = none) ∧
    ((this.moveAssign a).1.capacity_left_ub = a.capacity_left_ub ∧
     (this.moveAssign a).1.next_block_size = a.next_block_size ∧
     (this.moveAssign a).2.next_block_size = 0 ∧
     (this.moveAssign a).2.cur_ = 0 ∧ (this.moveAssign a).2.end_ = 0 ∧
     (this.moveAssign a).2.capacity_left_ub = none) := by
  simp [virtual_block_allocator.moveConstruct, virtual_block_allocator.moveAssign,
        virtual_block_allocator.swap, virtual_block_allocator.capacity_left_ub,
        virtual_block_allocator.next_block_size]

/-- C10: `allocate_block` and `deallocate_block` modify only the cursor:
`end_` and `block_size_` are unchanged by both, so `next_block_size`
returns the same value after any sequence of such calls as immediately
after construction. -/
theorem block_ops_touch_only_cursor :
    (∀ (a : virtual_block_allocator) (os : OS) (ok : Bool),
       (a.allocate_block os ok).2.1.end_ = a.end_ ∧
       (a.allocate_block os ok).2.1.block_size_ = a.block_size_) ∧
    (∀ (a : virtual_block_allocator) (os : OS) (b : memory_block),
       (a.deallocate_block os b).1.end_ = a.end_ ∧
       (a.deallocate_block os b).1.block_size_ = a.block_size_) ∧
    (∀ (ops : List block_op) (a : virtual_block_allocator) (os : OS),
       (run_block_ops ops a os).1.next_block_size = a.next_block_size) :=
  ⟨allocate_block_frame, deallocate_block_frame,
   fun ops a os => (run_block_ops_frame ops a os).2⟩

/-- C3: `allocate_block` signals out-of-memory exactly when
`cur_ = end_` (without touching the OS) or when the commit fails; in both
failure cases the allocator and the OS are left unchanged; on success it
commits `block_size_` bytes at `cur_`, advances `cur_` by `block_size_`,
and returns the block `(old cursor, block_size_)`. -/
theorem allocate_block_out_of_memory_cases (a : virtual_block_allocator) (os : OS)
    (ok : Bool) :
    (a.cur_ = a.end_ →
       a.allocate_block os ok =
         (.error ⟨"virtual_block_allocator", a.block_size_⟩, a, os)) ∧
    (a.cur_ ≠ a.end_ → ok = false →
       a.allocate_block os ok =
         (.error ⟨"virtual_block_allocator", a.block_size_⟩, a, os)) ∧
    (a.cur_ ≠ a.end_ → ok = true →
       a.allocate_block os ok =
         (.ok ⟨a.cur_, a.block_size_⟩,
          { a with cur_ := a.cur_ + a.block_size_ },
          { os with committed := (a.cur_, a.block_size_ / os.pageSize) :: os.committed })) := by
  refine ⟨fun h => ?_, fun h hok => ?_, fun h hok => ?_⟩
  · simp [virtual_block_allocator.allocate_block, h]
  · subst hok
    simp [virtual_block_allocator.allocate_block, virtual_memory_commit, h]
  · subst hok
    simp [virtual_block_allocator.allocate_block, virtual_memory_commit, h]

/-- Witness for C3: the three cases of `allocate_block_out_of_memory_cases`
at concrete inputs (page size 4096, one block of 4096 bytes left). -/
theorem allocate_block_out_of_memory_cases_witness :
    (virtual_block_allocator.allocate_block ⟨4096, 4096, 4096⟩ ⟨4096, [], []⟩ true =
       (.error ⟨"virtual_block_allocator", 4096⟩, ⟨4096, 4096, 4096⟩, ⟨4096, [], []⟩)) ∧
    (virtual_block_allocator.allocate_block ⟨4096, 8192, 4096⟩ ⟨4096, [], []⟩ false =
       (.error ⟨"virtual_block_allocator", 4096⟩, ⟨4096, 8192, 4096⟩, ⟨4096, [], []⟩)) ∧
    (virtual_block_allocator.allocate_block ⟨4096, 8192, 4096⟩ ⟨4096, [], []⟩ true =
       (.ok ⟨4096, 4096⟩, ⟨8192, 8192, 4096⟩, ⟨4096, [], [(4096, 1)]⟩)) := by
  refine ⟨?_, ?_, ?_⟩
  · exact (allocate_block_out_of_memory_cases ⟨4096, 4096, 4096⟩ ⟨4096, [], []⟩ true).1 rfl
  · exact (allocate_block_out_of_memory_cases ⟨4096, 8192, 4096⟩ ⟨4096, [], []⟩ false).2.1
      (by decide) rfl
  · exact (allocate_block_out_of_memory_cases ⟨4096, 8192, 4096⟩ ⟨4096, [], []⟩ true).2.2
      (by decide) rfl

/-- C5: given `block_size` non-zero and a multiple of the page size and
`no_blocks > 1`, the constructor reserves exactly
`block_size * no_blocks` bytes as one reservation (the page count of the single
new entry times the page size is exactly that byte total) and sets the
cursor to the start of the reservation; if the reservation cannot be made it
signals out-of-memory and leaves the OS untouched. -/
theorem construct_reserves_one_region (os : OS) (block_size no_blocks base : Nat)
    (hps : 0 < os.pageSize) (hbs : block_size ≠ 0) (hdvd : os.pageSize ∣ block_size)
    (hnb : 1 < no_blocks) :
    (∃ a, virtual_block_allocator.construct os block_size no_blocks (some base) =
        (.ok a,
         { os with reserved :=
             (base, block_size * no_blocks / os.pageSize) :: os.reserved }) ∧
      a.cur_ = base ∧ a.end_ = base + block_size * no_blocks ∧
      a.block_size_ = block_size ∧
      block_size * no_blocks / os.pageSize * os.pageSize = block_size * no_blocks) ∧
    virtual_block_allocator.construct os block_size no_blocks none =
      (.error ⟨"virtual_block_allocator", block_size * no_blocks⟩, os) := by
  constructor
  · refine ⟨⟨base, base + block_size * no_blocks, block_size⟩, ?_, rfl, rfl, rfl, ?_⟩
    · simp [virtual_block_allocator.construct, virtual_memory_reserve]
    · exact Nat.div_mul_cancel (Dvd.dvd.mul_right hdvd no_blocks)
  · simp [virtual_block_allocator.construct, virtual_memory_reserve]

/-- Witness for C5: constructing with page size 4096, four blocks of
65536 bytes each, at base address 4096. -/
theorem construct_reserves_one_region_witness :
    (∃ a, virtual_block_allocator.construct ⟨4096, [], []⟩ 65536 4 (some 4096) =
        (.ok a, ⟨4096, [(4096, 64)], []⟩) ∧
      a.cur_ = 4096 ∧ a.end_ = 4096 + 65536 * 4 ∧ a.block_size_ = 65536 ∧
      65536 * 4 / 4096 * 4096 = 65536 * 4) ∧
    virtual_block_allocator.construct ⟨4096, [], []⟩ 65536 4 none =
      (.error ⟨"virtual_block_allocator", 65536 * 4⟩, ⟨4096, [], []⟩) :=
  construct_reserves_one_region ⟨4096, [], []⟩ 65536 4 4096 (by decide) (by decide)
    (by decide) (by decide)

/-- C6: the invariant `cur_ ≤ end_ ∧ block_size_ ∣ end_ - cur_` (that is,
`end - cursor` is a non-negative multiple of `block_size`) holds after a
successful construction and is preserved by `allocate_block` (both
outcomes), by `deallocate_block` (under its LIFO precondition, which
guarantees an outstanding block, i.e. `block_size_ ≤ cur_`), by move
construction, move assignment and `swap` (in both operands, the moved-from
empty state satisfying it trivially); and `capacity_left` always equals
`(end_ - cur_) / block_size_`. -/
theorem invariant_preserved_by_all_operations :
    (∀ (os : OS) (bs nb : Nat) (resp : Option Nat) (a : virtual_block_allocator)
       (os1 : OS), virtual_block_allocator.construct os bs nb resp = (.ok a, os1) →
         a.inv) ∧
    (∀ (a : virtual_block_allocator) (os : OS) (ok : Bool),
       a.inv → (a.allocate_block os ok).2.1.inv) ∧
    (∀ (a : virtual_block_allocator) (os : OS) (b : memory_block),
       a.inv → a.block_size_ ≤ a.cur_ → (a.deallocate_block os b).1.inv) ∧
    (∀ a : virtual_block_allocator, a.inv →
       a.moveConstruct.1.inv ∧ a.moveConstruct.2.inv) ∧
    (∀ a b : virtual_block_allocator, a.inv → b.inv →
       (a.moveAssign b).1.inv ∧ (a.moveAssign b).2.inv) ∧
    (∀ a b : virtual_block_allocator, a.inv → b.inv →
       (virtual_block_allocator.swap a b).1.inv ∧
       (virtual_block_allocator.swap a b).2.inv) ∧
    (∀ a : virtual_block_allocator,
       a.capacity_left = (a.end_ - a.cur_) / a.block_size_) := by
  refine ⟨?_, inv_allocate_block_aux, inv_deallocate_block_aux, ?_, ?_, ?_, fun _ => rfl⟩
  · intro os bs nb resp a os1 h
    cases resp with
    | none => simp [virtual_block_allocator.construct, virtual_memory_reserve] at h
    | some base =>
      simp [virtual_block_allocator.construct, virtual_memory_reserve] at h
      obtain ⟨ha, -⟩ := h
      subst ha
      exact ⟨Nat.le_add_right _ _, by simp⟩
  · intro a h
    exact ⟨h, le_refl 0, dvd_rfl⟩
  · intro a b ha hb
    exact ⟨hb, le_refl 0, dvd_rfl⟩
  · intro a b ha hb
    exact ⟨hb, ha⟩

/-- Witness for C6: each conjunct of
`invariant_preserved_by_all_operations` at concrete inputs
(page size 4096, blocks of 4096 bytes). -/
theorem invariant_preserved_witness :
    ((⟨4096, 16384, 4096⟩ : virtual_block_allocator)).inv ∧
    (virtual_block_allocator.allocate_block ⟨4096, 16384, 4096⟩ ⟨4096, [], []⟩
        true).2.1.inv ∧
    (virtual_block_allocator.deallocate_block ⟨8192, 16384, 4096⟩ ⟨4096, [], []⟩
        ⟨4096, 4096⟩).1.inv ∧
    (virtual_block_allocator.moveConstruct ⟨4096, 16384, 4096⟩).1.inv ∧
    (virtual_block_allocator.moveConstruct ⟨4096, 16384, 4096⟩).2.inv ∧
    (virtual_block_allocator.moveAssign ⟨0, 0, 0⟩ ⟨4096, 16384, 4096⟩).1.inv ∧
    (virtual_block_allocator.swap ⟨4096, 16384, 4096⟩ ⟨0, 0, 0⟩).1.inv ∧
    virtual_block_allocator.capacity_left ⟨4096, 16384, 4096⟩ =
      (16384 - 4096) / 4096 := by
  have hinv : ((⟨4096, 16384, 4096⟩ : virtual_block_allocator)).inv := by
    constructor
    · decide
    · decide
  have hinv0 : ((⟨0, 0, 0⟩ : virtual_block_allocator)).inv := by
    constructor
    · decide
    · decide
  refine ⟨hinv, ?_, ?_, ?_, ?_, ?_, ?_, ?_⟩
  · exact invariant_preserved_by_all_operations.2.1 ⟨4096, 16384, 4096⟩ ⟨4096, [], []⟩
      true hinv
  · exact invariant_preserved_by_all_operations.2.2.1 ⟨8192, 16384, 4096⟩ ⟨4096, [], []⟩
      ⟨4096, 4096⟩ (by constructor <;> decide) (by decide)
  · exact (invariant_preserved_by_all_operations.2.2.2.1 ⟨4096, 16384, 4096⟩ hinv).1
  · exact (invariant_preserved_by_all_operations.2.2.2.1 ⟨4096, 16384, 4096⟩ hinv).2
  · exact (invariant_preserved_by_all_operations.2.2.2.2.1 ⟨0, 0, 0⟩ ⟨4096, 16384, 4096⟩
      hinv0 hinv).1
  · exact (invariant_preserved_by_all_operations.2.2.2.2.2.1 ⟨4096, 16384, 4096⟩
      ⟨0, 0, 0⟩ hinv hinv0).1
  · exact invariant_preserved_by_all_operations.2.2.2.2.2.2 ⟨4096, 16384, 4096⟩

lemma alloc_blocks_success (k : Nat) :
    ∀ (a : virtual_block_allocator) (os : OS),
      a.inv → k ≤ a.capacity_left →
      ∃ a1 os1, alloc_blocks k a os = some (a1, os1) ∧
        a1.cur_ = a.cur_ + k * a.block_size_ ∧ a1.end_ = a.end_ ∧
        a1.block_size_ = a.block_size_ ∧
        a1.capacity_left = a.capacity_left - k := by
  induction k with
  | zero =>
    intro a os _ _
    exact ⟨a, os, rfl, by simp, rfl, rfl, by simp⟩
  | succ k ih =>
    intro a os hinv hk
    obtain ⟨hle, m, hm⟩ := hinv
    have hbs : 0 < a.block_size_ := by
      rcases Nat.eq_zero_or_pos a.block_size_ with h0 | h0
      · exfalso
        have : a.capacity_left = 0 := by
          simp [virtual_block_allocator.capacity_left, h0]
        omega
      · exact h0
    have hcap : a.capacity_left = m := by
      simp [virtual_block_allocator.capacity_left, hm, Nat.mul_div_cancel_left m hbs]
    have hm1 : 0 < m := by omega
    have hmul : a.block_size_ ≤ a.block_size_ * m := Nat.le_mul_of_pos_right _ hm1
    have hne : a.cur_ ≠ a.end_ := by omega
    set a1 : virtual_block_allocator :=
      ⟨a.cur_ + a.block_size_, a.end_, a.block_size_⟩ with ha1
    have ha1inv : a1.inv := by
      refine ⟨by simp [ha1]; omega, ?_⟩
      have hrw : a1.end_ - a1.cur_ = a.block_size_ * m - a.block_size_ := by
        simp [ha1]; omega
      rw [hrw]
      exact Nat.dvd_sub' (dvd_mul_right _ _) dvd_rfl
    have ha1cap : a1.capacity_left = m - 1 := by
      have hrw : a1.end_ - a1.cur_ = a.block_size_ * (m - 1) := by
        simp [ha1, Nat.mul_sub_one]
        omega
      simp [virtual_block_allocator.capacity_left, hrw,
            Nat.mul_div_cancel_left _ hbs, ha1]
    have hk1 : k ≤ a1.capacity_left := by omega
    obtain ⟨a2, os2, hrun, hcur, hend, hbsz, hcap2⟩ :=
      ih a1 { os with committed :=
        (a.cur_, a.block_size_ / os.pageSize) :: os.committed } ha1inv hk1
    refine ⟨a2, os2, ?_, ?_, hend, by simpa [ha1] using hbsz, ?_⟩
    · simp only [alloc_blocks, allocate_block_success_eq a os hne]
      exact hrun
    · simp [ha1] at hcur
      rw [hcur]
      ring
    · rw [hcap2, ha1cap, hcap]
      omega

/-- C2: for a `virtual_block_allocator` constructed with
`(block_size, no_blocks)` satisfying the constructor preconditions,
`capacity_left = no_blocks` immediately after construction, and after `k`
successful `allocate_block` calls with no intervening deallocations,
`capacity_left = no_blocks - k`. -/
theorem capacity_after_k_allocations (os : OS) (block_size no_blocks k base : Nat)
    (hps : 0 < os.pageSize) (hbs : block_size ≠ 0) (hdvd : os.pageSize ∣ block_size)
    (hnb : 1 < no_blocks) (hk : k ≤ no_blocks) :
    ∃ a, (virtual_block_allocator.construct os block_size no_blocks (some base)).1 =
        .ok a ∧
      a.capacity_left = no_blocks ∧
      ∀ os1 : OS, ∃ a1 os2, alloc_blocks k a os1 = some (a1, os2) ∧
        a1.capacity_left = no_blocks - k := by
  refine ⟨⟨base, base + block_size * no_blocks, block_size⟩, rfl, ?_, ?_⟩
  case refine_1 =>
    simp [virtual_block_allocator.capacity_left,
          Nat.mul_div_cancel_left no_blocks (Nat.pos_of_ne_zero hbs)]
  case refine_2 =>
    intro os1
    have hinv : (⟨base, base + block_size * no_blocks, block_size⟩ :
        virtual_block_allocator).inv := by
      refine ⟨Nat.le_add_right _ _, ?_⟩
      simp
    have hcap : (⟨base, base + block_size * no_blocks, block_size⟩ :
        virtual_block_allocator).capacity_left = no_blocks := by
      simp [virtual_block_allocator.capacity_left,
            Nat.mul_div_cancel_left no_blocks (Nat.pos_of_ne_zero hbs)]
    obtain ⟨a1, os2, hrun, -, -, -, hcap1⟩ :=
      alloc_blocks_success k ⟨base, base + block_size * no_blocks, block_size⟩ os1
        hinv (by omega)
    exact ⟨a1, os2, hrun, by omega⟩

/-- Witness for C2: page size 4096, four blocks of 65536 bytes, two
successful allocations leave capacity 2. -/
theorem capacity_after_k_allocations_witness :
    ∃ a, (virtual_block_allocator.construct ⟨4096, [], []⟩ 65536 4 (some 4096)).1 =
        .ok a ∧
      a.capacity_left = 4 ∧
      ∀ os1 : OS, ∃ a1 os2, alloc_blocks 2 a os1 = some (a1, os2) ∧
        a1.capacity_left = 4 - 2 :=
  capacity_after_k_allocations ⟨4096, [], []⟩ 65536 4 2 4096 (by decide) (by decide)
    (by decide) (by decide) (by decide)

/-- C4: if `b` is the most recently allocated block (the address of `b` plus
`block_size_` is the cursor), then `deallocate_block b` followed by a
successful `allocate_block` returns a block at the original address of `b`
with size `block_size_`, restores the allocator exactly (so
`capacity_left` returns to its value before the `deallocate_block`
call). -/
theorem deallocate_then_allocate_returns_same_block (a : virtual_block_allocator)
    (os : OS) (b : memory_block) (hbs : 0 < a.block_size_)
    (htop : b.memory + a.block_size_ = a.cur_) (hle : a.cur_ ≤ a.end_) :
    ((a.deallocate_block os b).1.allocate_block (a.deallocate_block os b).2 true).1 =
      .ok ⟨b.memory, a.block_size_⟩ ∧
    ((a.deallocate_block os b).1.allocate_block (a.deallocate_block os b).2 true).2.1 =
      a ∧
    ((a.deallocate_block os b).1.allocate_block
        (a.deallocate_block os b).2 true).2.1.capacity_left = a.capacity_left := by
  have hcur : a.cur_ - a.block_size_ = b.memory := by omega
  have hne : (a.deallocate_block os b).1.cur_ ≠ (a.deallocate_block os b).1.end_ := by
    show a.cur_ - a.block_size_ ≠ a.end_
    omega
  have heq := allocate_block_success_eq (a.deallocate_block os b).1
    (a.deallocate_block os b).2 hne
  have hres : ((a.deallocate_block os b).1.allocate_block
      (a.deallocate_block os b).2 true).2.1 = a := by
    rw [heq]
    show ({ cur_ := a.cur_ - a.block_size_ + a.block_size_, end_ := a.end_,
            block_size_ := a.block_size_ } : virtual_block_allocator) = a
    rw [show a.cur_ - a.block_size_ + a.block_size_ = a.cur_ by omega]
  refine ⟨?_, hres, by rw [hres]⟩
  rw [heq]
  show Except.ok (⟨a.cur_ - a.block_size_, a.block_size_⟩ : memory_block) =
    .ok ⟨b.memory, a.block_size_⟩
  rw [hcur]

/-- Witness for C4: two blocks allocated out of four (cursor at 12288),
the top block is at 8192; deallocating and reallocating returns the block
at 8192 and restores the allocator. -/
theorem deallocate_then_allocate_returns_same_block_witness :
    ((virtual_block_allocator.deallocate_block ⟨12288, 20480, 4096⟩
        ⟨4096, [], [(8192, 1)]⟩ ⟨8192, 4096⟩).1.allocate_block
      (virtual_block_allocator.deallocate_block ⟨12288, 20480, 4096⟩
        ⟨4096, [], [(8192, 1)]⟩ ⟨8192, 4096⟩).2 true).1 = .ok ⟨8192, 4096⟩ ∧
    ((virtual_block_allocator.deallocate_block ⟨12288, 20480, 4096⟩
        ⟨4096, [], [(8192, 1)]⟩ ⟨8192, 4096⟩).1.allocate_block
      (virtual_block_allocator.deallocate_block ⟨12288, 20480, 4096⟩
        ⟨4096, [], [(8192, 1)]⟩ ⟨8192, 4096⟩).2 true).2.1 = ⟨12288, 20480, 4096⟩ ∧
    ((virtual_block_allocator.deallocate_block ⟨12288, 20480, 4096⟩
        ⟨4096, [], [(8192, 1)]⟩ ⟨8192, 4096⟩).1.allocate_block
      (virtual_block_allocator.deallocate_block ⟨12288, 20480, 4096⟩
        ⟨4096, [], [(8192, 1)]⟩ ⟨8192, 4096⟩).2 true).2.1.capacity_left =
      virtual_block_allocator.capacity_left ⟨12288, 20480, 4096⟩ :=
  deallocate_then_allocate_returns_same_block ⟨12288, 20480, 4096⟩
    ⟨4096, [], [(8192, 1)]⟩ ⟨8192, 4096⟩ (by decide) (by decide) (by decide)

/-- C7: for every `size` and every `alignment ≤ page_size`, a successful
`allocate_node (size, alignment)` returns an address that is aligned to at
least the page size and is never null, and `deallocate_node` with that
address and the identical `(size, alignment)` pair completes without
error, fully reversing the allocation in the OS.  (The OS hands out
page-aligned, non-null reservation bases.) -/
theorem allocate_node_aligned_and_reversible (os : OS) (size alignment base : Nat)
    (fence : Bool) (hps : 0 < os.pageSize) (halign : alignment ≤ os.pageSize)
    (hbase : os.pageSize ∣ base) (hbase0 : 0 < base) :
    ∃ node,
      (virtual_memory_allocator.allocate_node os size alignment fence (some base)
          true).1 = .ok node ∧
      os.pageSize ∣ node ∧ node ≠ 0 ∧
      virtual_memory_allocator.deallocate_node
        (virtual_memory_allocator.allocate_node os size alignment fence (some base)
            true).2 node size alignment fence = os := by
  refine ⟨base + (if fence then 1 else 0) * os.pageSize, rfl, ?_, ?_, ?_⟩
  · exact dvd_add hbase (dvd_mul_left _ _)
  · omega
  · have h1 : base + (if fence then 1 else 0) * os.pageSize -
        (if fence then 1 else 0) * os.pageSize = base := by omega
    show virtual_memory_release
      (virtual_memory_decommit
        { os with
          reserved := (base, ceil_div size os.pageSize +
            2 * (if fence then 1 else 0)) :: os.reserved,
          committed := (base + (if fence then 1 else 0) * os.pageSize,
            ceil_div size os.pageSize) :: os.committed }
        (base + (if fence then 1 else 0) * os.pageSize) (ceil_div size os.pageSize))
      (base + (if fence then 1 else 0) * os.pageSize -
        (if fence then 1 else 0) * os.pageSize)
      (ceil_div size os.pageSize + 2 * (if fence then 1 else 0)) = os
    rw [h1]
    simp [virtual_memory_decommit, virtual_memory_release]

/-- Witness for C7: `allocate_node(1, 1)` with fencing, page size 4096,
reservation base 4096. -/
theorem allocate_node_aligned_and_reversible_witness :
    ∃ node,
      (virtual_memory_allocator.allocate_node ⟨4096, [], []⟩ 1 1 true (some 4096)
          true).1 = .ok node ∧
      (4096 : Nat) ∣ node ∧ node ≠ 0 ∧
      virtual_memory_allocator.deallocate_node
        (virtual_memory_allocator.allocate_node ⟨4096, [], []⟩ 1 1 true (some 4096)
            true).2 node 1 1 true = ⟨4096, [], []⟩ :=
  allocate_node_aligned_and_reversible ⟨4096, [], []⟩ 1 1 4096 true (by decide)
    (by decide) (by decide) (by decide)

/-- C8: a successful `allocate_node (size, alignment)` computes
`pages = ceil(size / page_size)` (the minimal page count holding `size`
bytes, as the last two conjuncts state), adds one guard page before and
one after exactly when fencing is enabled, reserves that total as one
reservation, and commits only the non-fencing pages: the committed range
starts one page past the reservation base when fencing is on, and covers
`pages` pages, so the guard pages stay uncommitted. -/
theorem allocate_node_page_accounting (os : OS) (size alignment base : Nat)
    (fence : Bool) (hps : 0 < os.pageSize) :
    (virtual_memory_allocator.allocate_node os size alignment fence (some base)
        true).1 = .ok (base + (if fence then 1 else 0) * os.pageSize) ∧
    (virtual_memory_allocator.allocate_node os size alignment fence (some base)
        true).2.reserved =
      (base, ceil_div size os.pageSize + 2 * (if fence then 1 else 0)) ::
        os.reserved ∧
    (virtual_memory_allocator.allocate_node os size alignment fence (some base)
        true).2.committed =
      (base + (if fence then 1 else 0) * os.pageSize, ceil_div size os.pageSize) ::
        os.committed ∧
    size ≤ ceil_div size os.pageSize * os.pageSize ∧
    ceil_div size os.pageSize * os.pageSize < size + os.pageSize := by
  refine ⟨rfl, rfl, rfl, ?_, ?_⟩
  · unfold ceil_div
    have hdm := Nat.div_add_mod (size + os.pageSize - 1) os.pageSize
    have hlt := Nat.mod_lt (size + os.pageSize - 1) hps
    rw [Nat.mul_comm]
    omega
  · unfold ceil_div
    have hle := Nat.div_mul_le_self (size + os.pageSize - 1) os.pageSize
    omega

/-- Witness for C8: `allocate_node(1, 1)` with fencing on, page size 4096:
three pages reserved at 4096, one page committed at 8192. -/
theorem allocate_node_page_accounting_witness :
    (virtual_memory_allocator.allocate_node ⟨4096, [], []⟩ 1 1 true (some 4096)
        true).1 = .ok (4096 + (if true then 1 else 0) * 4096) ∧
    (virtual_memory_allocator.allocate_node ⟨4096, [], []⟩ 1 1 true (some 4096)
        true).2.reserved =
      (4096, ceil_div 1 4096 + 2 * (if true then 1 else 0)) :: [] ∧
    (virtual_memory_allocator.allocate_node ⟨4096, [], []⟩ 1 1 true (some 4096)
        true).2.committed =
      (4096 + (if true then 1 else 0) * 4096, ceil_div 1 4096) :: [] ∧
    1 ≤ ceil_div 1 4096 * 4096 ∧
    ceil_div 1 4096 * 4096 < 1 + 4096 :=
  allocate_node_page_accounting ⟨4096, [], []⟩ 1 1 4096 true (by decide)

/-- C9: whenever `allocate_node (size, alignment)` fails (reserve denied,
or commit denied), the out-of-memory payload carries the originally
requested `size` (not a page-rounded value), and no partial state is left
in the OS: the reservation set and the commitment set end up exactly as
before the call (a reservation made before a failing commit is released
before signaling). -/
theorem allocate_node_failure_payload_and_clean (os : OS) (size alignment : Nat)
    (fence : Bool) (reserveResp : Option Nat) (commitOk : Bool) (e : out_of_memory)
    (herr : (virtual_memory_allocator.allocate_node os size alignment fence
        reserveResp commitOk).1 = .error e) :
    e.size = size ∧
    (virtual_memory_allocator.allocate_node os size alignment fence reserveResp
        commitOk).2.reserved = os.reserved ∧
    (virtual_memory_allocator.allocate_node os size alignment fence reserveResp
        commitOk).2.committed = os.committed := by
  cases reserveResp with
  | none =>
    refine ⟨?_, rfl, rfl⟩
    injection herr with h
    rw [← h]
  | some base =>
    cases commitOk with
    | true =>
      exfalso
      cases fence <;>
        simp [virtual_memory_allocator.allocate_node, virtual_memory_reserve,
          virtual_memory_commit] at herr
    | false =>
      refine ⟨?_, ?_, rfl⟩
      · injection herr with h
        rw [← h]
      · show ((base, ceil_div size os.pageSize + 2 * (if fence then 1 else 0)) ::
            os.reserved).erase
            (base, ceil_div size os.pageSize + 2 * (if fence then 1 else 0)) =
          os.reserved
        exact List.erase_cons_head _ _

/-- Witness for C9: a denied reservation for a 5-byte request on an empty
OS state leaves both sets empty and reports size 5. -/
theorem allocate_node_failure_payload_and_clean_witness :
    (⟨"virtual_memory_allocator", 5⟩ : out_of_memory).size = 5 ∧
    (virtual_memory_allocator.allocate_node ⟨4096, [], []⟩ 5 1 true none
        true).2.reserved = ([] : List (Nat × Nat)) ∧
    (virtual_memory_allocator.allocate_node ⟨4096, [], []⟩ 5 1 true none
        true).2.committed = ([] : List (Nat × Nat)) :=
  allocate_node_failure_payload_and_clean ⟨4096, [], []⟩ 5 1 true none true
    ⟨"virtual_memory_allocator", 5⟩ rfl
